import Mathlib

/-!
Verification of the GTBACK market-data cache and scanner core.

The definitions below are a shallow embedding of the Python sources in
src/services/cache_service.py, src/services/finnhub_service.py and
src/services/scanner_service.py.  Numeric values (Python floats and ints
used in prices, volumes and timestamps) are modelled as rationals, except
where the source manipulates genuine integers (ttl_seconds), which are
modelled as integers.  Python dicts keyed by strings are modelled as
association lists without duplicate keys; dict assignment removes any
previous binding and prepends the new one, which yields the same
key-to-value map as the mutating Python update.
-/

/-- One cached record, mirroring the dict
    cache_data = [value, timestamp, ttl] built by CacheService.set. -/
structure CacheEntry (α : Type) where
  value : α
  timestamp : ℚ
  ttl : ℤ
  deriving DecidableEq

/-- The in-memory fallback store self.memory_cache: a string-keyed dict. -/
abbrev MemCache (α : Type) := List (String × CacheEntry α)

/-- Dict lookup: memory_cache[key], as an Option. -/
def dictGet {α : Type} (c : MemCache α) (key : String) : Option (CacheEntry α) :=
  (c.find? (fun p => p.1 == key)).map (fun p => p.2)

/-- Dict assignment memory_cache[key] = entry (overwrites any old binding). -/
def dictInsert {α : Type} (c : MemCache α) (key : String) (e : CacheEntry α) : MemCache α :=
  (key, e) :: c.filter (fun p => !(p.1 == key))

/-- Dict deletion del memory_cache[key]. -/
def dictErase {α : Type} (c : MemCache α) (key : String) : MemCache α :=
  c.filter (fun p => !(p.1 == key))

/-- Python substring test needle in hay, on the character lists. -/
def strContains (hay needle : List Char) : Bool :=
  hay.tails.any (fun t => needle.isPrefixOf t)

/-- Python comparison of two (name, value) string tuples, as performed by
    sorted on dict items: lexicographic on the pair, with each string
    compared lexicographically by character (code point), here expressed on
    the character lists. -/
def paramLE (a b : String × String) : Prop :=
  toLex (a.1.data, a.2.data) ≤ toLex (b.1.data, b.2.data)

instance : DecidableRel paramLE :=
  fun a b => inferInstanceAs
    (Decidable (toLex (a.1.data, a.2.data) ≤ toLex (b.1.data, b.2.data)))

instance : IsTotal (String × String) paramLE :=
  ⟨fun a b => le_total (toLex (a.1.data, a.2.data)) (toLex (b.1.data, b.2.data))⟩

instance : IsTrans (String × String) paramLE :=
  ⟨fun _ _ _ h1 h2 => le_trans h1 h2⟩

/-- Two strings with the same character list are equal. -/
theorem string_eq_of_data_eq {a b : String} (h : a.data = b.data) : a = b := by
  cases a
  cases b
  exact congrArg String.mk h

instance : IsAntisymm (String × String) paramLE :=
  ⟨fun a b h1 h2 => by
    have heq : (a.1.data, a.2.data) = (b.1.data, b.2.data) :=
      congrArg ofLex (le_antisymm h1 h2)
    have e1 : a.1 = b.1 := string_eq_of_data_eq (congrArg Prod.fst heq)
    have e2 : a.2 = b.2 := string_eq_of_data_eq (congrArg Prod.snd heq)
    exact Prod.ext e1 e2⟩

/-- Fueled matcher for Redis KEYS glob patterns restricted to the star
    wildcard, which is the only wildcard the repository uses.  Models the
    behaviour of the networked backend (external to the repository) on
    clear_pattern.  The fuel argument only serves structural recursion;
    pattern length plus subject length plus one is always enough. -/
def globMatchFuel : ℕ → List Char → List Char → Bool
  | 0, _, _ => false
  | _ + 1, [], s => s.isEmpty
  | n + 1, a :: p, s =>
      if a == '*' then
        match s with
        | [] => globMatchFuel n p []
        | c :: s2 => globMatchFuel n p (c :: s2) || globMatchFuel n (a :: p) s2
      else
        match s with
        | [] => false
        | c :: s2 => (a == c) && globMatchFuel n p s2

/-- Redis glob match (star wildcard only). -/
def globMatch (pat s : String) : Bool :=
  globMatchFuel (pat.data.length + s.data.length + 1) pat.data s.data

namespace CacheService

/-- CacheService._is_expired: time.time() - timestamp > ttl_seconds.
    The wall clock time.time() is passed explicitly as now. -/
def _is_expired (timestamp : ℚ) (ttl_seconds : ℤ) (now : ℚ) : Bool :=
  decide (now - timestamp > (ttl_seconds : ℚ))

/-- CacheService.set, in-memory fallback path: stores the value together
    with the write timestamp and the ttl.  (The auxiliary dict
    cache_timestamps is bookkeeping that no read path consults, so it is
    not modelled.) -/
def set {α : Type} (c : MemCache α) (key : String) (value : α)
    (ttl_seconds : ℤ) (now : ℚ) : MemCache α :=
  dictInsert c key ⟨value, now, ttl_seconds⟩

/-- CacheService.get, in-memory fallback path: returns the stored value if
    the entry exists and is not expired; an expired entry is purged and
    treated as absent.  Returns the possibly-purged store alongside. -/
def get {α : Type} (c : MemCache α) (key : String) (now : ℚ) :
    Option α × MemCache α :=
  match dictGet c key with
  | some cached_data =>
      if !(_is_expired cached_data.timestamp cached_data.ttl now) then
        (some cached_data.value, c)
      else
        (none, dictErase c key)
  | none => (none, c)

/-- CacheService.delete, in-memory fallback path. -/
def delete {α : Type} (c : MemCache α) (key : String) : MemCache α :=
  dictErase c key

/-- CacheService.clear_pattern, in-memory fallback path: deletes every key
    containing pattern.replace(star, empty) as a substring and returns the
    count removed.  The replace call with a one-character pattern and empty
    replacement is the removal of every star character. -/
def clear_pattern {α : Type} (c : MemCache α) (pat : String) :
    MemCache α × ℕ :=
  let needle := pat.data.filter (fun ch => !(ch == '*'))
  let kept := c.filter (fun p => !(strContains p.1.data needle))
  (kept, (c.filter (fun p => strContains p.1.data needle)).length)

/-- CacheService.clear_pattern, networked (Redis) path: the server deletes
    every key matching the glob pattern and reports the count.  The store
    contents are modelled with the same association list as the fallback. -/
def clear_pattern_redis {α : Type} (c : MemCache α) (pat : String) :
    MemCache α × ℕ :=
  let kept := c.filter (fun p => !(globMatch pat p.1))
  (kept, (c.filter (fun p => globMatch pat p.1)).length)

/-- Python sorted(kwargs.items()): parameters sorted as pairs, that is
    lexicographically by name and then by (string-rendered) value. -/
def sortParams (kwargs : List (String × String)) : List (String × String) :=
  List.insertionSort paramLE kwargs

/-- CacheService._generate_key: joins the domain, the identifier, and, when
    parameters are present, the sorted name:value renderings joined by
    underscores, all joined by colons. -/
def _generate_key (domain identifier : String)
    (kwargs : List (String × String)) : String :=
  let key_parts := [domain, identifier]
  let key_parts :=
    if kwargs.isEmpty then key_parts
    else key_parts ++
      [String.intercalate "_" ((sortParams kwargs).map (fun p => p.1 ++ ":" ++ p.2))]
  String.intercalate ":" key_parts

end CacheService

/-- A quote dict as the scanner reads it: quote.get with keys c (price),
    dp (percent change), v (volume) and pc (previous close); a none field
    models an absent key. -/
structure ScanQuote where
  c : Option ℚ := none
  dp : Option ℚ := none
  v : Option ℚ := none
  pc : Option ℚ := none
  deriving DecidableEq

/-- A company profile dict.  The snake_case keys are the ones the service
    layer (FinnhubService.get_company_profile) writes; the camelCase keys
    shareOutstanding and avgVolume10Day are the ones the scanner reads with
    profile.get.  A none field models an absent key. -/
structure ProfileDict where
  symbol : Option String := none
  name : Option String := none
  ticker : Option String := none
  exchange : Option String := none
  industry : Option String := none
  market_cap : Option ℚ := none
  shares_outstanding : Option ℚ := none
  float : Option ℚ := none
  country : Option String := none
  currency : Option String := none
  logo : Option String := none
  weburl : Option String := none
  ipo_date : Option String := none
  shareOutstanding : Option ℚ := none
  avgVolume10Day : Option ℚ := none
  deriving DecidableEq

/-- The quote_data dict built by FinnhubService.get_quote (field open_
    models the key named open). -/
structure QuoteData where
  symbol : String
  current_price : ℚ
  change : ℚ
  percent_change : ℚ
  high : ℚ
  low : ℚ
  open_ : ℚ
  previous_close : ℚ
  timestamp : ℤ
  deriving DecidableEq

/-- The candle_data dict built by FinnhubService.get_candles (field open_
    models the key named open). -/
structure CandleData where
  symbol : String
  resolution : String
  timestamps : List ℚ
  open_ : List ℚ
  high : List ℚ
  low : List ℚ
  close : List ℚ
  volume : List ℚ
  deriving DecidableEq

/-- A value stored in the shared market-data cache.  Every constructor
    carries a non-empty dict, so a cached value is always truthy in the
    Python sense. -/
inductive CVal where
  | quote (q : QuoteData)
  | profile (p : ProfileDict)
  | candles (cd : CandleData)
  deriving DecidableEq

/-- The raw JSON payload of the upstream quote endpoint. -/
structure RawQuote where
  c : Option ℚ := none
  d : Option ℚ := none
  dp : Option ℚ := none
  h : Option ℚ := none
  l : Option ℚ := none
  o : Option ℚ := none
  pc : Option ℚ := none
  deriving DecidableEq

/-- The raw JSON payload of the upstream company-profile endpoint. -/
structure RawProfile where
  name : Option String := none
  ticker : Option String := none
  exchange : Option String := none
  finnhubIndustry : Option String := none
  country : Option String := none
  currency : Option String := none
  logo : Option String := none
  weburl : Option String := none
  ipo : Option String := none
  marketCapitalization : Option ℚ := none
  shareOutstanding : Option ℚ := none
  deriving DecidableEq

namespace MarketDataCache

/-- MarketDataCache.TTL_SETTINGS (seconds per domain). -/
def TTL_SETTINGS : String → ℤ
  | "quote" => 120
  | "profile" => 3600
  | "news" => 300
  | "company_news" => 600
  | "candles" => 900
  | "search" => 1800
  | "market_status" => 60
  | "scanner" => 300
  | "batch_quotes" => 120
  | _ => 0

/-- MarketDataCache._generate_key: prefixes the domain with market: and
    delegates to CacheService._generate_key. -/
def _generate_key (domain identifier : String)
    (kwargs : List (String × String)) : String :=
  CacheService._generate_key ("market:" ++ domain) identifier kwargs

/-- MarketDataCache.cache_quote. -/
def cache_quote (c : MemCache CVal) (symbol : String) (qd : QuoteData)
    (now : ℚ) : MemCache CVal :=
  CacheService.set c (_generate_key "quote" symbol []) (CVal.quote qd)
    (TTL_SETTINGS "quote") now

/-- MarketDataCache.get_quote. -/
def get_quote (c : MemCache CVal) (symbol : String) (now : ℚ) :
    Option CVal × MemCache CVal :=
  CacheService.get c (_generate_key "quote" symbol []) now

/-- MarketDataCache.cache_profile. -/
def cache_profile (c : MemCache CVal) (symbol : String) (pd : ProfileDict)
    (now : ℚ) : MemCache CVal :=
  CacheService.set c (_generate_key "profile" symbol []) (CVal.profile pd)
    (TTL_SETTINGS "profile") now

/-- MarketDataCache.get_profile. -/
def get_profile (c : MemCache CVal) (symbol : String) (now : ℚ) :
    Option CVal × MemCache CVal :=
  CacheService.get c (_generate_key "profile" symbol []) now

/-- MarketDataCache.cache_candles. -/
def cache_candles (c : MemCache CVal) (symbol resolution : String)
    (days_back : ℕ) (cd : CandleData) (cache_key_suffix : String)
    (now : ℚ) : MemCache CVal :=
  CacheService.set c
    (_generate_key "candles" symbol
      [("resolution", resolution), ("days", toString days_back),
       ("suffix", cache_key_suffix)])
    (CVal.candles cd) (TTL_SETTINGS "candles") now

/-- MarketDataCache.clear_symbol_cache on the in-memory fallback backend. -/
def clear_symbol_cache (c : MemCache CVal) (symbol : String) :
    MemCache CVal × ℕ :=
  CacheService.clear_pattern c ("market:*:" ++ symbol ++ "*")

/-- MarketDataCache.clear_symbol_cache on the networked (Redis) backend. -/
def clear_symbol_cache_redis (c : MemCache CVal) (symbol : String) :
    MemCache CVal × ℕ :=
  CacheService.clear_pattern_redis c ("market:*:" ++ symbol ++ "*")

end MarketDataCache

/-- A JSON object body, abstracted as string key-value pairs; the empty
    list models the empty dict. -/
abbrev JsonDict := List (String × String)

/-- Outcome of the underlying HTTP GET inside FinnhubService._make_request:
    either a response carrying a status code and a parsed JSON body, or a
    transport failure (connection error, timeout), which the requests
    library raises as a RequestException. -/
inductive HttpOutcome where
  | response (status : ℕ) (body : JsonDict)
  | transportError
  deriving DecidableEq

namespace FinnhubService

/-- The try block of FinnhubService._make_request: a 429 response returns
    the empty dict immediately; raise_for_status raises HTTPError (a
    RequestException) for the other 4xx and 5xx codes; otherwise the parsed
    body is returned.  An error value models a raised RequestException. -/
def _make_request_attempt : HttpOutcome → Except String JsonDict
  | .transportError => .error "RequestException"
  | .response status body =>
      if status = 429 then .ok []
      else if 400 ≤ status then .error "HTTPError"
      else .ok body

/-- FinnhubService._make_request: the try block wrapped in the except
    clause that converts every RequestException into the empty dict.  The
    plain return type shows that no exception escapes to the caller. -/
def _make_request (o : HttpOutcome) : JsonDict :=
  match _make_request_attempt o with
  | .ok data => data
  | .error _ => []

/-- The quote_data dict built by FinnhubService.get_quote from the raw
    payload: missing fields default to zero and the timestamp is
    int(time.time()). -/
def quote_data (symbol : String) (data : RawQuote) (now : ℚ) : QuoteData :=
  { symbol := symbol
    current_price := data.c.getD 0
    change := data.d.getD 0
    percent_change := data.dp.getD 0
    high := data.h.getD 0
    low := data.l.getD 0
    open_ := data.o.getD 0
    previous_close := data.pc.getD 0
    timestamp := ⌊now⌋ }

/-- The profile_data dict built by FinnhubService.get_company_profile.
    Every key it stores is snake_case; in particular the keys
    shareOutstanding and avgVolume10Day that the scanner later reads are
    left absent. -/
def profile_data (symbol : String) (data : RawProfile) : ProfileDict :=
  { symbol := some symbol
    name := some (data.name.getD "")
    ticker := some (data.ticker.getD symbol)
    exchange := some (data.exchange.getD "")
    industry := some (data.finnhubIndustry.getD "")
    market_cap := some (data.marketCapitalization.getD 0)
    shares_outstanding := some (data.shareOutstanding.getD 0)
    float := some (data.shareOutstanding.getD 0)
    country := some (data.country.getD "")
    currency := some (data.currency.getD "USD")
    logo := some (data.logo.getD "")
    weburl := some (data.weburl.getD "")
    ipo_date := some (data.ipo.getD "") }

/-- FinnhubService.get_quote: cache first; on miss the upstream response
    (none models the empty dict produced by _make_request, a some value a
    non-empty one) is stored and returned when it has the key c, otherwise
    the empty dict is returned and nothing is cached.  The boolean records
    whether the upstream adapter was invoked. -/
def get_quote (cache : MemCache CVal) (upstream : Option RawQuote)
    (symbol : String) (now : ℚ) : Option CVal × MemCache CVal × Bool :=
  let looked := MarketDataCache.get_quote cache symbol now
  match looked.1 with
  | some cached_quote => (some cached_quote, looked.2, false)
  | none =>
      match upstream with
      | some data =>
          if data.c.isSome then
            let qd := quote_data symbol data now
            (some (CVal.quote qd),
             MarketDataCache.cache_quote looked.2 symbol qd now, true)
          else (none, looked.2, true)
      | none => (none, looked.2, true)

/-- FinnhubService.get_company_profile: cache first; on miss any non-empty
    upstream response is stored and returned, and an empty response is
    returned as the empty dict without caching. -/
def get_company_profile (cache : MemCache CVal) (upstream : Option RawProfile)
    (symbol : String) (now : ℚ) : Option CVal × MemCache CVal × Bool :=
  let looked := MarketDataCache.get_profile cache symbol now
  match looked.1 with
  | some cached_profile => (some cached_profile, looked.2, false)
  | none =>
      match upstream with
      | some data =>
          let pd := profile_data symbol data
          (some (CVal.profile pd),
           MarketDataCache.cache_profile looked.2 symbol pd now, true)
      | none => (none, looked.2, true)

end FinnhubService

/-- Round half to even at integer precision: the rounding mode of the
    Python built-in round. -/
def roundHalfEven (x : ℚ) : ℤ :=
  if Int.fract x < 1 / 2 then ⌊x⌋
  else if Int.fract x = 1 / 2 then (if ⌊x⌋ % 2 = 0 then ⌊x⌋ else ⌊x⌋ + 1)
  else ⌊x⌋ + 1

/-- Python round(x, 2): round half to even at two decimal places. -/
def round2 (x : ℚ) : ℚ := (roundHalfEven (x * 100) : ℚ) / 100

namespace ScannerService

def PRICE_MIN : ℚ := 1
def PRICE_MAX : ℚ := 20
def MIN_RELATIVE_VOLUME : ℚ := 5
def MIN_PERCENT_CHANGE : ℚ := 10
def MAX_FLOAT : ℚ := 20000000
def PREFERRED_MAX_FLOAT : ℚ := 10000000
def CACHE_TTL : ℤ := 30

/-- ScannerService._calculate_relative_volume: current volume over the
    10-day average volume, defaulting an absent average to 1 and guarding a
    zero average to 0. -/
def _calculate_relative_volume (quote : ScanQuote) (profile : ProfileDict) : ℚ :=
  let current_volume := quote.v.getD 0
  let avg_volume := profile.avgVolume10Day.getD 1
  if avg_volume = 0 then 0 else current_volume / avg_volume

/-- ScannerService._is_momentum_candidate.  The none branch of the float
    comparison models the Python default float(inf), which fails the test
    against MAX_FLOAT. -/
def _is_momentum_candidate (quote : ScanQuote) (profile : ProfileDict) : Bool :=
  let price := quote.c.getD 0
  let percent_change := quote.dp.getD 0
  let volume := quote.v.getD 0
  (decide (PRICE_MIN ≤ price) && decide (price ≤ PRICE_MAX)) &&
  decide (percent_change ≥ MIN_PERCENT_CHANGE) &&
  decide (volume > 100000) &&
  (match profile.shareOutstanding with
   | some float_shares => decide (float_shares ≤ MAX_FLOAT)
   | none => false) &&
  decide (_calculate_relative_volume quote profile ≥ MIN_RELATIVE_VOLUME)

/-- ScannerService._calculate_ross_score.  The none branch of the float
    bonus models the Python default float(inf), which falls through every
    threshold band and adds nothing. -/
def _calculate_ross_score (quote : ScanQuote) (profile : ProfileDict) : ℚ :=
  let price := quote.c.getD 0
  let percent_change := quote.dp.getD 0
  let relative_volume := _calculate_relative_volume quote profile
  let score : ℚ := 0
  let score := score + min (percent_change * 2) 40
  let score := score + min (relative_volume * 3) 30
  let score := score +
    (match profile.shareOutstanding with
     | some float_shares =>
         if float_shares ≤ 5000000 then (20 : ℚ)
         else if float_shares ≤ 10000000 then 15
         else if float_shares ≤ 20000000 then 10
         else 0
     | none => 0)
  let score := score +
    (if 2 ≤ price ∧ price ≤ 10 then (10 : ℚ)
     else if 1 ≤ price ∧ price ≤ 20 then 5
     else 0)
  round2 score

/-- One entry of the momentum scanner result list.  The momentum_data dict
    carries further display-only fields; ranking reads only ross_score and
    the tie-break question reads only symbol, so the record keeps those. -/
structure MomentumRecord where
  symbol : String
  ross_score : ℚ
  deriving DecidableEq

/-- Comparator realised by the Python stable sort
    momentum_stocks.sort(key=ross_score, reverse=True): a record may
    precede another exactly when its score is not smaller. -/
def rossLE (a b : MomentumRecord) : Prop := b.ross_score ≤ a.ross_score

instance : DecidableRel rossLE :=
  fun a b => inferInstanceAs (Decidable (b.ross_score ≤ a.ross_score))

instance : IsTotal MomentumRecord rossLE :=
  ⟨fun a b => le_total b.ross_score a.ross_score⟩

instance : IsTrans MomentumRecord rossLE :=
  ⟨fun _ _ _ h1 h2 => le_trans h2 h1⟩

/-- The Python list sort is stable, and a stable sort is extensionally
    determined by its comparator, so the sort of get_momentum_scanner is
    modelled by insertion sort (a stable algorithm) under rossLE. -/
def rank (l : List MomentumRecord) : List MomentumRecord :=
  List.insertionSort rossLE l

/-- The cache key scanner:momentum:limit of get_momentum_scanner. -/
def momentum_cache_key (limit : ℕ) : String :=
  "scanner:momentum:" ++ toString limit

/-- ScannerService.get_momentum_scanner: serve from cache when the cached
    value is truthy (a non-empty list); otherwise sort the evaluated
    candidate records by score descending (stably), truncate to limit,
    cache the truncated list for CACHE_TTL seconds and return it.  The
    network-bound per-candidate evaluation loop is abstracted by the
    computed argument; the boolean records whether this invocation
    recomputed (true) or was served from the cache (false). -/
def get_momentum_scanner (cache : MemCache (List MomentumRecord))
    (computed : List MomentumRecord) (limit : ℕ) (now : ℚ) :
    List MomentumRecord × MemCache (List MomentumRecord) × Bool :=
  let key := momentum_cache_key limit
  let looked := CacheService.get cache key now
  match looked.1 with
  | some cached_result =>
      if cached_result.isEmpty then
        let result := (rank computed).take limit
        (result, CacheService.set looked.2 key result CACHE_TTL now, true)
      else (cached_result, looked.2, false)
  | none =>
      let result := (rank computed).take limit
      (result, CacheService.set looked.2 key result CACHE_TTL now, true)

end ScannerService

/-- Spec-side definition, following the specification words for the
    momentum filter: price within bounds, percentChange at least minChange,
    volume at least minVolume, float at most maxFloat, relativeVolume at
    least minRelVol, everything inclusive. -/
def momentumSpecEligible
    (price percentChange volume floatShares relativeVolume : ℚ) : Prop :=
  1 ≤ price ∧ price ≤ 20 ∧ 10 ≤ percentChange ∧ 100000 ≤ volume ∧
  floatShares ≤ 20000000 ∧ 5 ≤ relativeVolume

/-- Spec-side definition, amended for the strict volume comparison the
    code performs: volume strictly greater than minVolume, the remaining
    comparisons inclusive. -/
def momentumSpecEligibleStrict
    (price percentChange volume floatShares relativeVolume : ℚ) : Prop :=
  1 ≤ price ∧ price ≤ 20 ∧ 10 ≤ percentChange ∧ 100000 < volume ∧
  floatShares ≤ 20000000 ∧ 5 ≤ relativeVolume

/-- Spec-side definition, following the specification words for the
    ranking order: score descending with ties broken by symbol ascending. -/
def rankSpecLE (a b : ScannerService.MomentumRecord) : Prop :=
  b.ross_score < a.ross_score ∨
    (a.ross_score = b.ross_score ∧ a.symbol ≤ b.symbol)

instance : DecidableRel rankSpecLE := fun a b => by
  unfold rankSpecLE; infer_instance

/-- Candidate AAA of the concrete ranking scenario: price 5, percent change
    15, volume 500000. -/
def qAAA : ScanQuote := { c := some 5, dp := some 15, v := some 500000 }

/-- Profile of candidate AAA: float 8000000 and an average volume making
    the relative volume exactly 6. -/
def pAAA : ProfileDict :=
  { shareOutstanding := some 8000000, avgVolume10Day := some (250000 / 3) }

/-- Candidate BBB: as AAA but percent change 11. -/
def qBBB : ScanQuote := { c := some 5, dp := some 11, v := some 500000 }

/-- Profile of candidate BBB: float 8000000 and an average volume making
    the relative volume exactly 5.1. -/
def pBBB : ProfileDict :=
  { shareOutstanding := some 8000000, avgVolume10Day := some (5000000 / 51) }

/-- A candidate sitting exactly on the minimum-volume boundary: volume
    100000 with every other attribute comfortably eligible. -/
def qVolEdge : ScanQuote := { c := some 5, dp := some 15, v := some 100000 }

/-- Profile for the volume-boundary candidate: float 8000000 and average
    volume 1, making the relative volume 100000. -/
def pVolEdge : ProfileDict :=
  { shareOutstanding := some 8000000, avgVolume10Day := some 1 }

/-- Tied scanner records used for the ranking tie-break scenario. -/
def recZZZ : ScannerService.MomentumRecord := ⟨"ZZZ", 10⟩

/-- Second tied record, alphabetically before recZZZ. -/
def recAAA : ScannerService.MomentumRecord := ⟨"AAA", 10⟩

/-- A concrete AAPL quote payload for the invalidation scenario. -/
def qdAAPL : QuoteData := ⟨"AAPL", 5, 0, 0, 0, 0, 0, 0, 0⟩

/-- A concrete MSFT quote payload for the invalidation scenario. -/
def qdMSFT : QuoteData := ⟨"MSFT", 7, 0, 0, 0, 0, 0, 0, 0⟩

/-- A concrete AAPL profile payload for the invalidation scenario. -/
def pdAAPL : ProfileDict := { symbol := some "AAPL", name := some "Apple" }

/-- A concrete AAPL candle payload for the invalidation scenario. -/
def cdAAPL : CandleData := ⟨"AAPL", "D", [], [], [], [], [], []⟩

/-- The cache after caching quote, profile and candles for AAPL and a
    quote for MSFT, all at time 0. -/
def c8Cache : MemCache CVal :=
  MarketDataCache.cache_quote
    (MarketDataCache.cache_candles
      (MarketDataCache.cache_profile
        (MarketDataCache.cache_quote [] "AAPL" qdAAPL 0)
        "AAPL" pdAAPL 0)
      "AAPL" "D" 30 cdAAPL "" 0)
    "MSFT" qdMSFT 0

/-- C1: for every key, value and ttlSeconds greater than zero, get
    immediately after set returns the value, and get strictly more than
    ttlSeconds after the set finds the entry expired and treats it as
    absent. -/
theorem cache_set_then_get_ttl {α : Type} (c : MemCache α) (key : String)
    (value : α) (ttl : ℤ) (t0 t1 : ℚ) (httl : 0 < ttl)
    (hlate : (ttl : ℚ) < t1 - t0) :
    (CacheService.get (CacheService.set c key value ttl t0) key t0).1 = some value ∧
    (CacheService.get (CacheService.set c key value ttl t0) key t1).1 = none := by
  have hget : dictGet (CacheService.set c key value ttl t0) key =
      some ⟨value, t0, ttl⟩ := by
    simp [dictGet, CacheService.set, dictInsert, List.find?]
  constructor
  · have hexp : CacheService._is_expired t0 ttl t0 = false := by
      simp only [CacheService._is_expired, decide_eq_false_iff_not]
      intro hgt
      have hpos : (0 : ℚ) < (ttl : ℚ) := by exact_mod_cast httl
      rw [sub_self] at hgt
      linarith
    simp [CacheService.get, hget, hexp]
  · have hexp : CacheService._is_expired t0 ttl t1 = true := by
      have h1 : t1 - t0 > (ttl : ℚ) := hlate
      simp [CacheService._is_expired, h1]
    simp [CacheService.get, hget, hexp]

/-- Witness for C1 at key k, value v, ttl 5, set at time 0, late read at
    time 6. -/
theorem cache_set_then_get_ttl_witness :
    (CacheService.get (CacheService.set ([] : MemCache String) "k" "v" 5 0) "k" 0).1
        = some "v" ∧
    (CacheService.get (CacheService.set ([] : MemCache String) "k" "v" 5 0) "k" 6).1
        = none :=
  cache_set_then_get_ttl [] "k" "v" 5 0 6 (by norm_num) (by norm_num)

/-- C2: the cache key derived by CacheService._generate_key does not depend
    on the order in which the keyword parameters are supplied: any two
    parameter lists that are permutations of one another produce the same
    key string. -/
theorem generate_key_param_order_invariant (domain identifier : String)
    (p₁ p₂ : List (String × String)) (h : p₁.Perm p₂) :
    CacheService._generate_key domain identifier p₁ =
      CacheService._generate_key domain identifier p₂ := by
  have hsort : CacheService.sortParams p₁ = CacheService.sortParams p₂ := by
    unfold CacheService.sortParams
    have hperm : (List.insertionSort paramLE p₁).Perm (List.insertionSort paramLE p₂) :=
      ((List.perm_insertionSort _ _).trans h).trans
        (List.perm_insertionSort _ _).symm
    exact List.eq_of_perm_of_sorted hperm
      (List.sorted_insertionSort _ _) (List.sorted_insertionSort _ _)
  have hnil : p₁.isEmpty = p₂.isEmpty := by
    have hlen := h.length_eq
    cases p₁ <;> cases p₂ <;> simp_all
  simp [CacheService._generate_key, hsort, hnil]

/-- Witness for C2: the key for parameters a=1, b=2 equals the key for
    parameters b=2, a=1. -/
theorem generate_key_param_order_invariant_witness :
    CacheService._generate_key "quote" "AAPL" [("a", "1"), ("b", "2")] =
      CacheService._generate_key "quote" "AAPL" [("b", "2"), ("a", "1")] :=
  generate_key_param_order_invariant "quote" "AAPL" _ _ (List.Perm.swap _ _ _)

/-- The floor bounds roundHalfEven from below. -/
theorem le_roundHalfEven (x : ℚ) : ⌊x⌋ ≤ roundHalfEven x := by
  unfold roundHalfEven
  split_ifs <;> omega

/-- The floor plus one bounds roundHalfEven from above. -/
theorem roundHalfEven_le (x : ℚ) : roundHalfEven x ≤ ⌊x⌋ + 1 := by
  unfold roundHalfEven
  split_ifs <;> omega

/-- Round half to even is monotone. -/
theorem roundHalfEven_mono {x y : ℚ} (h : x ≤ y) :
    roundHalfEven x ≤ roundHalfEven y := by
  rcases lt_or_eq_of_le (Int.floor_mono h) with hlt | heq
  · have h1 := roundHalfEven_le x
    have h2 := le_roundHalfEven y
    omega
  · have hfr : Int.fract x ≤ Int.fract y := by
      rw [← Int.self_sub_floor, ← Int.self_sub_floor, heq]
      exact sub_le_sub_right h _
    unfold roundHalfEven
    rw [heq]
    rcases lt_trichotomy (Int.fract x) (1 / 2) with hx | hx | hx
    · rw [if_pos hx]
      split_ifs <;> omega
    · have hxne : ¬ Int.fract x < 1 / 2 := by rw [hx]; exact lt_irrefl _
      rw [if_neg hxne, if_pos hx]
      rw [hx] at hfr
      have hy1 : ¬ Int.fract y < 1 / 2 := by intro hcon; linarith
      rw [if_neg hy1]
      rcases eq_or_lt_of_le hfr with hy2 | hy2
      · rw [if_pos hy2.symm]
      · rw [if_neg (ne_of_gt hy2)]
        split_ifs <;> omega
    · have hx1 : ¬ Int.fract x < 1 / 2 := by linarith
      have hx2 : Int.fract x ≠ 1 / 2 := ne_of_gt hx
      rw [if_neg hx1, if_neg hx2]
      have hy1 : ¬ Int.fract y < 1 / 2 := by intro hcon; linarith
      have hy2 : Int.fract y ≠ 1 / 2 := by
        intro hcon; rw [hcon] at hfr; linarith
      rw [if_neg hy1, if_neg hy2]

/-- Python round to two decimal places is monotone. -/
theorem round2_mono {x y : ℚ} (h : x ≤ y) : round2 x ≤ round2 y := by
  unfold round2
  have hm : roundHalfEven (x * 100) ≤ roundHalfEven (y * 100) :=
    roundHalfEven_mono (by linarith)
  have hc : ((roundHalfEven (x * 100) : ℤ) : ℚ) ≤ ((roundHalfEven (y * 100) : ℤ) : ℚ) := by
    exact_mod_cast hm
  linarith

/-- C3 counterexample: a candidate with volume exactly minVolume = 100000
    and every other attribute comfortably eligible satisfies the
    spec-stated filter (volume at least minVolume) yet the code filter
    rejects it, because the code compares volume strictly. -/
theorem momentum_filter_volume_boundary_counterexample :
    ScannerService._is_momentum_candidate qVolEdge pVolEdge = false ∧
    momentumSpecEligible 5 15 100000 8000000
      (ScannerService._calculate_relative_volume qVolEdge pVolEdge) := by
  constructor
  · decide
  · refine ⟨by norm_num, by norm_num, by norm_num, by norm_num, by norm_num, ?_⟩
    show (5 : ℚ) ≤ ScannerService._calculate_relative_volume qVolEdge pVolEdge
    norm_num [ScannerService._calculate_relative_volume, qVolEdge, pVolEdge]

/-- C3 amended: the momentum filter passes exactly the candidates with
    price in the closed interval from 1 to 20, percent change at least 10,
    volume strictly greater than 100000, float at most 20000000 and
    relative volume at least 5. -/
theorem momentum_filter_characterization (price pch vol flt avg : ℚ) :
    ScannerService._is_momentum_candidate
        { c := some price, dp := some pch, v := some vol }
        { shareOutstanding := some flt, avgVolume10Day := some avg } = true ↔
      momentumSpecEligibleStrict price pch vol flt
        (ScannerService._calculate_relative_volume
          { c := some price, dp := some pch, v := some vol }
          { shareOutstanding := some flt, avgVolume10Day := some avg }) := by
  simp only [ScannerService._is_momentum_candidate, momentumSpecEligibleStrict,
    ScannerService.PRICE_MIN, ScannerService.PRICE_MAX,
    ScannerService.MIN_PERCENT_CHANGE, ScannerService.MAX_FLOAT,
    ScannerService.MIN_RELATIVE_VOLUME, Bool.and_eq_true, decide_eq_true_eq,
    Option.getD_some, ge_iff_le, gt_iff_lt]
  tauto

/-- roundHalfEven is the identity on integers. -/
theorem roundHalfEven_intCast (n : ℤ) : roundHalfEven ((n : ℚ)) = n := by
  unfold roundHalfEven
  rw [Int.fract_intCast, Int.floor_intCast]
  norm_num

/-- round2 leaves a rational fixed when one hundred times it is an
    integer. -/
theorem round2_eq_self_of_mul_eq (x : ℚ) (n : ℤ) (h : x * 100 = (n : ℚ)) :
    round2 x = x := by
  unfold round2
  rw [h, roundHalfEven_intCast, ← h]
  ring

/-- Evaluation of the relative volume of candidate AAA. -/
theorem relative_volume_qAAA : ScannerService._calculate_relative_volume qAAA pAAA = 6 := by
  simp only [ScannerService._calculate_relative_volume, qAAA, pAAA, Option.getD_some]
  norm_num

/-- Evaluation of the relative volume of candidate BBB. -/
theorem relative_volume_qBBB :
    ScannerService._calculate_relative_volume qBBB pBBB = 51 / 10 := by
  simp only [ScannerService._calculate_relative_volume, qBBB, pBBB, Option.getD_some]
  norm_num

/-- Evaluation of the ross score of candidate AAA. -/
theorem ross_score_qAAA : ScannerService._calculate_ross_score qAAA pAAA = 73 := by
  simp only [ScannerService._calculate_ross_score]
  rw [relative_volume_qAAA]
  simp only [qAAA, pAAA, Option.getD_some]
  norm_num [min_def]
  exact round2_eq_self_of_mul_eq 73 7300 (by norm_num)

/-- Evaluation of the ross score of candidate BBB. -/
theorem ross_score_qBBB : ScannerService._calculate_ross_score qBBB pBBB = 623 / 10 := by
  simp only [ScannerService._calculate_ross_score]
  rw [relative_volume_qBBB]
  simp only [qBBB, pBBB, Option.getD_some]
  norm_num [min_def]
  exact round2_eq_self_of_mul_eq (623 / 10) 6230 (by norm_num)

/-- C9: candidate AAA (price 5, percent change 15, volume 500000, relative
    volume 6, float 8000000) passes the momentum filter and scores strictly
    higher than candidate BBB (identical except percent change 11 and
    relative volume 5.1); in general the ross score never increases when
    the percent change is lowered with every other input held equal. -/
theorem momentum_score_aaa_beats_bbb_and_monotone :
    ScannerService._is_momentum_candidate qAAA pAAA = true ∧
    ScannerService._calculate_ross_score qBBB pBBB <
      ScannerService._calculate_ross_score qAAA pAAA ∧
    ∀ (q : ScanQuote) (p : ProfileDict) (d₁ d₂ : ℚ), d₁ ≤ d₂ →
      ScannerService._calculate_ross_score { q with dp := some d₁ } p ≤
        ScannerService._calculate_ross_score { q with dp := some d₂ } p := by
  refine ⟨?_, ?_, ?_⟩
  · simp only [ScannerService._is_momentum_candidate]
    rw [relative_volume_qAAA]
    simp only [qAAA, pAAA, Option.getD_some]
    norm_num [ScannerService.PRICE_MIN, ScannerService.PRICE_MAX,
      ScannerService.MIN_PERCENT_CHANGE, ScannerService.MAX_FLOAT,
      ScannerService.MIN_RELATIVE_VOLUME]
  · rw [ross_score_qAAA, ross_score_qBBB]
    norm_num
  intro q p d₁ d₂ hd
  obtain ⟨qc, qdp, qv, qpc⟩ := q
  have hrv : ScannerService._calculate_relative_volume ⟨qc, some d₁, qv, qpc⟩ p =
      ScannerService._calculate_relative_volume ⟨qc, some d₂, qv, qpc⟩ p := rfl
  show ScannerService._calculate_ross_score ⟨qc, some d₁, qv, qpc⟩ p ≤
      ScannerService._calculate_ross_score ⟨qc, some d₂, qv, qpc⟩ p
  unfold ScannerService._calculate_ross_score
  rw [hrv]
  apply round2_mono
  have hmin : min (d₁ * 2) 40 ≤ min (d₂ * 2) 40 :=
    min_le_min (by linarith) le_rfl
  simp only [Option.getD_some]
  linarith

/-- Witness for C9: lowering the percent change of candidate AAA from 15
    to 11 does not increase its ross score. -/
theorem momentum_score_monotone_witness :
    ScannerService._calculate_ross_score { qAAA with dp := some 11 } pAAA ≤
      ScannerService._calculate_ross_score { qAAA with dp := some 15 } pAAA :=
  momentum_score_aaa_beats_bbb_and_monotone.2.2 qAAA pAAA 11 15 (by norm_num)

/-- C4 counterexample: two tied candidates (equal scores) come back in
    evaluation order, not in symbol-ascending order, so the output depends
    on the order in which candidates were evaluated and violates the
    claimed tie-break. -/
theorem momentum_ranking_tiebreak_counterexample :
    (ScannerService.get_momentum_scanner [] [recZZZ, recAAA] 20 0).1 ≠
      (ScannerService.get_momentum_scanner [] [recAAA, recZZZ] 20 0).1 ∧
    ¬ List.Sorted rankSpecLE
        (ScannerService.get_momentum_scanner [] [recZZZ, recAAA] 20 0).1 := by
  constructor
  · decide
  · have hout : (ScannerService.get_momentum_scanner [] [recZZZ, recAAA] 20 0).1 =
        [recZZZ, recAAA] := by decide
    rw [hout]
    intro hsorted
    have hrel : rankSpecLE recZZZ recAAA :=
      (List.sorted_cons.mp hsorted).1 recAAA (by simp)
    rcases hrel with hlt | ⟨heq, hle⟩
    · exact absurd hlt (by norm_num [recZZZ, recAAA])
    · have hzz : ¬ ("ZZZ" ≤ "AAA") := by
        rw [String.le_iff_toList_le]; decide
      exact hzz (by simpa [recZZZ, recAAA] using hle)

/-- C4 amended: a scan invocation that computes its results returns the
    stable descending sort by ross score of the evaluated candidates,
    truncated to the limit: the output is sorted by score descending, is a
    permutation-truncation of the input, and tied candidates stay in
    evaluation order (the stable insertion sort), with no symbol tie-break. -/
theorem momentum_ranking_stable_sort (computed : List ScannerService.MomentumRecord)
    (limit : ℕ) (now : ℚ) :
    (ScannerService.get_momentum_scanner [] computed limit now).1 =
      (ScannerService.rank computed).take limit ∧
    List.Sorted ScannerService.rossLE
      (ScannerService.get_momentum_scanner [] computed limit now).1 ∧
    (ScannerService.rank computed).Perm computed := by
  have hkey : (ScannerService.get_momentum_scanner [] computed limit now).1 =
      (ScannerService.rank computed).take limit := by
    simp [ScannerService.get_momentum_scanner, CacheService.get, dictGet]
  refine ⟨hkey, ?_, List.perm_insertionSort _ _⟩
  rw [hkey]
  exact (List.sorted_insertionSort ScannerService.rossLE computed).sublist
    (List.take_sublist _ _)

/-- C6: a 429 response or a transport error makes _make_request return the
    empty dict, and every exception raised inside the try block (the error
    results of _make_request_attempt) is converted into the empty dict
    instead of propagating to the caller. -/
theorem make_request_rate_limit_and_errors_empty (body : JsonDict)
    (o : HttpOutcome) (e : String) :
    FinnhubService._make_request (.response 429 body) = [] ∧
    FinnhubService._make_request .transportError = [] ∧
    (FinnhubService._make_request_attempt o = .error e →
      FinnhubService._make_request o = []) := by
  refine ⟨?_, rfl, ?_⟩
  · simp [FinnhubService._make_request, FinnhubService._make_request_attempt]
  · intro h
    simp [FinnhubService._make_request, h]

/-- Witness for C6: the transport-error outcome raises inside the try
    block and the caller still receives the empty dict. -/
theorem make_request_errors_empty_witness :
    FinnhubService._make_request HttpOutcome.transportError = [] :=
  (make_request_rate_limit_and_errors_empty [("c", "5")]
      HttpOutcome.transportError "RequestException").2.2 rfl

/-- Erasing a key removes its binding. -/
theorem dictGet_dictErase {α : Type} (c : MemCache α) (k : String) :
    dictGet (dictErase c k) k = none := by
  have hfind : (dictErase c k).find? (fun p => p.1 == k) = none := by
    rw [List.find?_eq_none]
    intro x hx
    have hmem := List.mem_filter.mp hx
    simpa using hmem.2
  simp [dictGet, dictErase, hfind]

/-- A get on a store with no binding under the key misses and leaves the
    store unchanged. -/
theorem cache_get_of_no_binding {α : Type} (c : MemCache α) (k : String)
    (now : ℚ) (h : dictGet c k = none) :
    CacheService.get c k now = (none, c) := by
  unfold CacheService.get
  rw [h]

/-- After a get that missed, the store holds no binding under the key:
    either none was there, or the expired entry was purged. -/
theorem cache_get_miss_no_binding {α : Type} (c : MemCache α) (k : String)
    (now : ℚ) (h : (CacheService.get c k now).1 = none) :
    dictGet (CacheService.get c k now).2 k = none := by
  unfold CacheService.get at h ⊢
  cases hd : dictGet c k with
  | none => simp [hd]
  | some e =>
      cases hexp : CacheService._is_expired e.timestamp e.ttl now with
      | true => simpa [hexp] using dictGet_dictErase c k
      | false => simp [hd, hexp] at h

/-- C5: when the cache misses and the upstream adapter returns the empty
    result, get_quote and get_company_profile hand the empty result to the
    caller and store nothing (the resulting cache is exactly the cache
    after the mere lookup), so a subsequent identical request misses again
    and invokes the upstream adapter afresh, whatever it then returns. -/
theorem empty_upstream_result_not_cached (cache : MemCache CVal)
    (symbol : String) (t0 t1 : ℚ) (u1 : Option RawQuote) (u2 : Option RawProfile)
    (hq : (FinnhubService.get_quote cache none symbol t0).2.2 = true)
    (hp : (FinnhubService.get_company_profile cache none symbol t0).2.2 = true) :
    (FinnhubService.get_quote cache none symbol t0).1 = none ∧
    (FinnhubService.get_quote cache none symbol t0).2.1 =
      (MarketDataCache.get_quote cache symbol t0).2 ∧
    (FinnhubService.get_quote
        (FinnhubService.get_quote cache none symbol t0).2.1 u1 symbol t1).2.2 = true ∧
    (FinnhubService.get_company_profile cache none symbol t0).1 = none ∧
    (FinnhubService.get_company_profile cache none symbol t0).2.1 =
      (MarketDataCache.get_profile cache symbol t0).2 ∧
    (FinnhubService.get_company_profile
        (FinnhubService.get_company_profile cache none symbol t0).2.1
        u2 symbol t1).2.2 = true := by
  have hqmiss : (MarketDataCache.get_quote cache symbol t0).1 = none := by
    cases hv : (MarketDataCache.get_quote cache symbol t0).1 with
    | none => rfl
    | some v =>
        simp only [FinnhubService.get_quote, hv] at hq
        exact absurd hq (by decide)
  have hpmiss : (MarketDataCache.get_profile cache symbol t0).1 = none := by
    cases hv : (MarketDataCache.get_profile cache symbol t0).1 with
    | none => rfl
    | some v =>
        simp only [FinnhubService.get_company_profile, hv] at hp
        exact absurd hp (by decide)
  have hq1 : FinnhubService.get_quote cache none symbol t0 =
      (none, (MarketDataCache.get_quote cache symbol t0).2, true) := by
    simp only [FinnhubService.get_quote, hqmiss]
  have hp1 : FinnhubService.get_company_profile cache none symbol t0 =
      (none, (MarketDataCache.get_profile cache symbol t0).2, true) := by
    simp only [FinnhubService.get_company_profile, hpmiss]
  have hqkey : dictGet (MarketDataCache.get_quote cache symbol t0).2
      (MarketDataCache._generate_key "quote" symbol []) = none := by
    unfold MarketDataCache.get_quote at hqmiss ⊢
    exact cache_get_miss_no_binding cache _ t0 hqmiss
  have hpkey : dictGet (MarketDataCache.get_profile cache symbol t0).2
      (MarketDataCache._generate_key "profile" symbol []) = none := by
    unfold MarketDataCache.get_profile at hpmiss ⊢
    exact cache_get_miss_no_binding cache _ t0 hpmiss
  have hq2 : (FinnhubService.get_quote
      (MarketDataCache.get_quote cache symbol t0).2 u1 symbol t1).2.2 = true := by
    have hg : CacheService.get (MarketDataCache.get_quote cache symbol t0).2
        (MarketDataCache._generate_key "quote" symbol []) t1 =
        (none, (MarketDataCache.get_quote cache symbol t0).2) :=
      cache_get_of_no_binding _ _ _ hqkey
    unfold MarketDataCache.get_quote at hg
    simp only [FinnhubService.get_quote, MarketDataCache.get_quote, hg]
    cases u1 with
    | none => rfl
    | some d => by_cases hc : d.c.isSome <;> simp [hc]
  have hp2 : (FinnhubService.get_company_profile
      (MarketDataCache.get_profile cache symbol t0).2 u2 symbol t1).2.2 = true := by
    have hg : CacheService.get (MarketDataCache.get_profile cache symbol t0).2
        (MarketDataCache._generate_key "profile" symbol []) t1 =
        (none, (MarketDataCache.get_profile cache symbol t0).2) :=
      cache_get_of_no_binding _ _ _ hpkey
    unfold MarketDataCache.get_profile at hg
    simp only [FinnhubService.get_company_profile, MarketDataCache.get_profile, hg]
    cases u2 with
    | none => rfl
    | some d => rfl
  refine ⟨by rw [hq1], by rw [hq1], ?_, by rw [hp1], by rw [hp1], ?_⟩
  · rw [hq1]
    exact hq2
  · rw [hp1]
    exact hp2

/-- Witness for C5 at the empty cache and symbol AAPL: the first request
    misses, so both hypotheses hold by computation. -/
theorem empty_upstream_result_not_cached_witness :
    (FinnhubService.get_quote [] none "AAPL" 0).1 = none ∧
    (FinnhubService.get_company_profile [] none "AAPL" 0).1 = none :=
  ⟨(empty_upstream_result_not_cached [] "AAPL" 0 1 none none rfl rfl).1,
   (empty_upstream_result_not_cached [] "AAPL" 0 1 none none rfl rfl).2.2.2.1⟩

/-- C7 counterexample: the momentum scanner caches its result with
    CACHE_TTL = 30 seconds, not 300: a repeated request 100 seconds after
    the first run, well inside the claimed 300-second window, finds the
    cached entry expired and recomputes instead of being served from the
    cache. -/
theorem scanner_cache_ttl_counterexample :
    ScannerService.CACHE_TTL ≠ 300 ∧
    (ScannerService.get_momentum_scanner
        (ScannerService.get_momentum_scanner [] [recAAA] 20 0).2.1
        [recAAA] 20 100).2.2 = true := by
  refine ⟨by decide, ?_⟩
  have h1 : ScannerService.get_momentum_scanner [] [recAAA] 20 0 =
      ([recAAA],
       [(ScannerService.momentum_cache_key 20,
         ⟨[recAAA], 0, ScannerService.CACHE_TTL⟩)], true) := by
    simp [ScannerService.get_momentum_scanner, CacheService.get, dictGet,
      CacheService.set, dictInsert, ScannerService.rank, List.insertionSort,
      List.orderedInsert]
  rw [h1]
  have hexp : CacheService._is_expired 0 ScannerService.CACHE_TTL 100 = true := by
    simp only [CacheService._is_expired, ScannerService.CACHE_TTL,
      decide_eq_true_eq]
    norm_num
  simp [ScannerService.get_momentum_scanner, CacheService.get, dictGet,
    List.find?, hexp]

/-- C7 amended: a momentum scan that computes a non-empty result caches it
    under the key derived from the scanner type and the limit, with
    CACHE_TTL = 30 seconds, so a repeated request with the same limit at
    most 30 seconds later is served from the cache without recomputation
    and returns the identical list. -/
theorem scanner_results_cached_thirty_seconds
    (computed computed2 : List ScannerService.MomentumRecord) (limit : ℕ)
    (t0 d : ℚ) (h30 : d ≤ 30)
    (hne : (ScannerService.rank computed).take limit ≠ []) :
    ScannerService.CACHE_TTL = 30 ∧
    ScannerService.get_momentum_scanner
        (ScannerService.get_momentum_scanner [] computed limit t0).2.1
        computed2 limit (t0 + d) =
      ((ScannerService.rank computed).take limit,
       (ScannerService.get_momentum_scanner [] computed limit t0).2.1, false) := by
  refine ⟨rfl, ?_⟩
  have h1 : ScannerService.get_momentum_scanner [] computed limit t0 =
      ((ScannerService.rank computed).take limit,
       [(ScannerService.momentum_cache_key limit,
         ⟨(ScannerService.rank computed).take limit, t0, ScannerService.CACHE_TTL⟩)],
       true) := by
    simp [ScannerService.get_momentum_scanner, CacheService.get, dictGet,
      CacheService.set, dictInsert]
  have hexp : CacheService._is_expired t0 ScannerService.CACHE_TTL (t0 + d) = false := by
    simp only [CacheService._is_expired, ScannerService.CACHE_TTL,
      decide_eq_false_iff_not]
    intro hgt
    norm_num at hgt
    linarith
  have hempty : ((ScannerService.rank computed).take limit).isEmpty = false := by
    cases h' : (ScannerService.rank computed).take limit with
    | nil => exact absurd h' hne
    | cons a t => rfl
  rw [h1]
  simp [ScannerService.get_momentum_scanner, CacheService.get, dictGet,
    List.find?, hexp, hempty]

/-- Witness for C7 at one concrete record, limit 20, first run at time 0
    and repeat at time 10. -/
theorem scanner_results_cached_witness :
    ScannerService.CACHE_TTL = 30 ∧
    ScannerService.get_momentum_scanner
        (ScannerService.get_momentum_scanner [] [recAAA] 20 0).2.1
        [] 20 (0 + 10) =
      ((ScannerService.rank [recAAA]).take 20,
       (ScannerService.get_momentum_scanner [] [recAAA] 20 0).2.1, false) :=
  scanner_results_cached_thirty_seconds [recAAA] [] 20 0 10 (by norm_num) (by decide)

/-- C8: the in-memory fallback clear_symbol_cache("AAPL") removes nothing:
    the fallback replaces the glob pattern by the substring market::AAPL
    (the pattern with the stars stripped), which no cache key contains, so
    the quote, profile and candles entries for AAPL all survive and the
    count is 0.  The glob pattern itself matches exactly the three AAPL
    keys and not the MSFT key, and the Redis-path clear removes exactly
    those three, keeping MSFT — the behaviour the claim describes. -/
theorem clear_symbol_cache_memory_backend_bug :
    MarketDataCache.clear_symbol_cache c8Cache "AAPL" = (c8Cache, 0) ∧
    globMatch "market:*:AAPL*"
      (MarketDataCache._generate_key "quote" "AAPL" []) = true ∧
    globMatch "market:*:AAPL*"
      (MarketDataCache._generate_key "profile" "AAPL" []) = true ∧
    globMatch "market:*:AAPL*"
      (MarketDataCache._generate_key "candles" "AAPL"
        [("resolution", "D"), ("days", "30"), ("suffix", "")]) = true ∧
    globMatch "market:*:AAPL*"
      (MarketDataCache._generate_key "quote" "MSFT" []) = false ∧
    (MarketDataCache.clear_symbol_cache_redis c8Cache "AAPL").2 = 3 ∧
    dictGet (MarketDataCache.clear_symbol_cache_redis c8Cache "AAPL").1
      (MarketDataCache._generate_key "quote" "MSFT" []) ≠ none ∧
    dictGet (MarketDataCache.clear_symbol_cache_redis c8Cache "AAPL").1
      (MarketDataCache._generate_key "quote" "AAPL" []) = none := by
  decide

/-- C10 counterexample: with current volume 0 and the avgVolume10Day field
    absent, the computed relative volume is 0 although the field is not
    present with value 0, refuting the parenthetical of the claim that
    relative volume is 0 only when the field is present and equals 0. -/
theorem relative_volume_zero_counterexample :
    ScannerService._calculate_relative_volume { v := some 0 } {} = 0 ∧
    ({} : ProfileDict).avgVolume10Day ≠ some 0 := by
  constructor
  · simp [ScannerService._calculate_relative_volume]
  · simp

/-- C10 amended: when the avgVolume10Day field is absent the default
    average 1 makes the relative volume equal the raw current volume; the
    profile dict built by the service never populates avgVolume10Day; and
    the relative volume is 0 exactly when the field is present with value
    0 or the current volume is 0. -/
theorem relative_volume_default_characterization (q : ScanQuote)
    (p : ProfileDict) (sym : String) (d : RawProfile) :
    ScannerService._calculate_relative_volume q
        { p with avgVolume10Day := none } = q.v.getD 0 ∧
    (FinnhubService.profile_data sym d).avgVolume10Day = none ∧
    (ScannerService._calculate_relative_volume q p = 0 ↔
      p.avgVolume10Day = some 0 ∨ q.v.getD 0 = 0) := by
  refine ⟨?_, rfl, ?_⟩
  · simp [ScannerService._calculate_relative_volume]
  · simp only [ScannerService._calculate_relative_volume]
    cases hav : p.avgVolume10Day with
    | none => simp [hav]
    | some a =>
        by_cases ha : a = 0
        · subst ha
          simp [hav]
        · simp [hav, ha, div_eq_zero_iff]
